import Mathlib

/-!
# Verification of the Minecraft-Discord DM notification helpers

Shallow embedding of `src/helpers/dm_manager.py` and
`src/helpers/notification.py`.

Modelling conventions:
* Python `float` epoch timestamps are modelled as `ℚ` (the cooldown logic
  only subtracts and compares timestamps, which is exact on the small
  values involved).
* The `self.dm_cooldowns` dict is an association list `List (String × ℚ)`
  with Python-dict semantics (assignment replaces an existing binding).
* The external Discord capabilities (`bot.get_user`, `bot.fetch_user`,
  `user.send`, the storage backend) are an explicit oracle record `Env`;
  a call that raises a Python exception is an `Except.error`.
* A value returned by a Python call that may raise is `Except Exc α`;
  `try/except` blocks of the source are `match` on that `Except`.
* Discord embeds are records of the attributes the source actually sets.
-/

/-- Python exceptions distinguished by the source's handlers:
`discord.Forbidden` has its own `except` clause, everything else is a
generic `Exception`. -/
inductive Exc where
  | forbidden
  | other
deriving DecidableEq, Repr

/-- One `embed.add_field(name=…, value=…, inline=…)` entry. -/
structure EmbedField where
  name : String
  value : String
  inlined : Bool
deriving DecidableEq, Repr

/-- A `discord.Embed`, restricted to the attributes the source sets.
`author` is the `set_author` name together with whether an `icon_url` was
supplied; `thumbnail` records whether `set_thumbnail` was called. -/
structure Embed where
  title : Option String := none
  description : Option String := none
  color : Int := 0
  author : Option (String × Bool) := none
  thumbnail : Bool := false
  fields : List EmbedField := []
  footer : Option String := none
  timestamp : Option Int := none
deriving DecidableEq, Repr

/-- Python truthiness of an optional string (`None` and `""` are falsy),
as used by `reason or "No reason provided"`. -/
def pyOrStr (s : Option String) (dflt : String) : String :=
  match s with
  | none => dflt
  | some r => if r = "" then dflt else r

/-- Python truthiness of an optional int (`None` and `0` are falsy), as
used by `if duration:` / `if duration and …:`. -/
def pyTruthyInt : Option Int → Bool
  | none => false
  | some d => d != 0

namespace DmManager

/-! ## `DMManager` (src/helpers/dm_manager.py)

`self.dm_cooldowns` maps the *string form* of a user id to the epoch
timestamp of the last allowed send. -/

/-- The `dm_cooldowns` dict. -/
abbrev Cooldowns := List (String × ℚ)

/-- Python dict lookup `d[k]` / `k in d` combined: `some` iff the key is
present. -/
def lookup : Cooldowns → String → Option ℚ
  | [], _ => none
  | (k, v) :: rest, key => if k = key then some v else lookup rest key

/-- Python dict assignment `d[k] = v`: replaces an existing binding,
otherwise appends. -/
def store : Cooldowns → String → ℚ → Cooldowns
  | [], key, v => [(key, v)]
  | (k, w) :: rest, key, v =>
      if k = key then (key, v) :: rest else (k, w) :: store rest key v

/-- Lines 38–46: the dynamic cooldown window.  Base 5 seconds, `+2` when
`message and len(message) > 200` (Python truthiness: the empty string is
falsy), `+1` when `embed` is passed (all embeds the callers build are
non-empty, hence truthy). -/
def cooldown_time (message : String) (embed : Option Embed) : ℚ :=
  5 + (if message ≠ "" ∧ message.length > 200 then 2 else 0)
    + (if embed.isSome then 1 else 0)

/-- Lines 35–53 of `send_dm`, factored as the spec's
`allow(recipient, …)` gate: returns the gate decision together with the
updated `dm_cooldowns` map.  The timestamp is recorded exactly when the
gate passes (line 53 runs after the early `return False` on line 50). -/
def allow (st : Cooldowns) (user_id : String) (current_time : ℚ)
    (message : String) (embed : Option Embed) : Bool × Cooldowns :=
  match lookup st user_id with
  | some last =>
      if current_time - last < cooldown_time message embed then
        (false, st)
      else
        (true, store st user_id current_time)
  | none => (true, store st user_id current_time)

/-- The user's stored profile, restricted to what `send_dm` reads:
`profile.get("preferences", {}).get("dm_notifications", True)` (the
defaulting of missing keys to `True` is folded into the field). -/
structure Profile where
  dm_notifications : Bool
deriving DecidableEq, Repr

/-- Oracle for the external capabilities `send_dm` calls.  Each field is
one call site; `Except.error` is that call raising. -/
structure Env where
  /-- `int(user_id)` (lines 57/60) — raises `ValueError` on a
  non-numeric string. -/
  userIdInt : Except Exc Int
  /-- `self.bot.get_user(uid)` — cache lookup, never raises. -/
  getUser : Int → Option Unit
  /-- `await self.bot.fetch_user(uid)` — remote lookup, may raise. -/
  fetchUser : Int → Except Exc (Option Unit)
  /-- `hasattr(self.bot, 'storage') and self.bot.storage`. -/
  hasStorage : Bool
  /-- `await self.bot.storage.get_user_profile(user_id)`. -/
  getUserProfile : Except Exc (Option Profile)
  /-- `await user.send(message[, embed=embed])` — may raise
  `discord.Forbidden` or any other exception. -/
  userSend : String → Option Embed → Except Exc Unit
  /-- `await self.bot.storage.increment_user_stat(...)`. -/
  incrementStat : Except Exc Unit

/-- Lines 56–62: cache lookup, falling back to the remote fetch. -/
def resolveUser (env : Env) : Except Exc (Option Unit) := do
  let uid ← env.userIdInt
  match env.getUser uid with
  | some u => pure (some u)
  | none => env.fetchUser uid

/-- Lines 64–73: the best-effort preference check.  `true` means the user
has opted out (`dm_notifications` falsy); a raised lookup error is caught
by the inner `except` and treated as "not opted out". -/
def optedOut (env : Env) : Bool :=
  if env.hasStorage then
    match env.getUserProfile with
    | .ok (some p) => !p.dm_notifications
    | .ok none => false
    | .error _ => false
  else false

/-- The body of the `try:` block, lines 55–88.  An `Except.error` result
is an exception escaping the block (to be caught by the handlers on
lines 89–95). -/
def send_dm_try (env : Env) (message : String) (embed : Option Embed) :
    Except Exc Bool := do
  match ← resolveUser env with
  | none => pure false
  | some _ =>
      if optedOut env then
        pure false
      else do
        let _ ← env.userSend message embed
        -- lines 82–86: the stat increment sits in its own
        -- `try/except: pass`, so its outcome is discarded
        let _ := if env.hasStorage then env.incrementStat else .ok ()
        pure true

/-- `DMManager.send_dm` (lines 20–95).  Returns the boolean result paired
with the updated `dm_cooldowns` map; the outer `Except` is `.error` only
if an exception escapes the method (the handlers on lines 89–95 turn
every exception into `return False`). -/
def send_dm (st : Cooldowns) (current_time : ℚ) (user_id : String)
    (message : String) (embed : Option Embed) (env : Env) :
    Except Exc (Bool × Cooldowns) :=
  let (allowed, st') := allow st user_id current_time message embed
  if allowed then
    match send_dm_try env message embed with
    | .ok b => .ok (b, st')
    | .error .forbidden => .ok (false, st')
    | .error .other => .ok (false, st')
  else
    .ok (false, st')

/-! ### `send_moderation_notification` (lines 300–383)

The embed construction is pure; it is factored out of the delivery call.
`nowUtc` stands for `datetime.datetime.utcnow()` as integral epoch
seconds, so `int((utcnow + timedelta(seconds=d)).timestamp())` is
`nowUtc + d`. -/

/-- Lines 330–338: the human-readable duration string built inline in
`send_moderation_notification` (only reached when `duration` is truthy).
Python `//` is floor division (`Int.fdiv`).  Note the unit word is
always plural here. -/
def duration_text (duration : Int) : String :=
  if duration < 60 then
    toString duration ++ " seconds"
  else if duration < 3600 then
    toString (Int.fdiv duration 60) ++ " minutes"
  else if duration < 86400 then
    toString (Int.fdiv duration 3600) ++ " hours"
  else
    toString (Int.fdiv duration 86400) ++ " days"

/-- Lines 316–377: the embed built by `send_moderation_notification`.
The title strings reproduce the file's literal (mojibake-encoded) emoji
characters. -/
def send_moderation_notification_embed (action_type : String)
    (reason : Option String) (duration : Option Int)
    (guild_name : String) (nowUtc : Int) : Embed :=
  let (title, color, description) :=
    if action_type = "ban" then
      ("üî® Banned from " ++ guild_name, (0x992D22 : Int),
        "You have been banned from **" ++ guild_name ++ "**.")
    else if action_type = "kick" then
      ("üë¢ Kicked from " ++ guild_name, 0xE67E22,
        "You have been kicked from **" ++ guild_name ++ "**.")
    else if action_type = "timeout" then
      ("‚è±Ô∏è Timed Out in " ++ guild_name, 0xF1C40F,
        -- line 330: `if duration:` — Python truthiness, so 0 and None
        -- both take the `else` branch
        match duration with
        | some d =>
            if d ≠ 0 then
              "You have been timed out in **" ++ guild_name ++ "** for **"
                ++ duration_text d ++ "**."
            else "You have been timed out in **" ++ guild_name ++ "**."
        | none => "You have been timed out in **" ++ guild_name ++ "**.")
    else if action_type = "mute" then
      ("üîá Muted in " ++ guild_name, 0xF39C12,
        "You have been muted in **" ++ guild_name ++ "**.")
    else if action_type = "unmute" then
      ("üîä Unmuted in " ++ guild_name, 0x2ECC71,
        "You have been unmuted in **" ++ guild_name ++ "**.")
    else
      ("Moderation Action in " ++ guild_name, 0x7F8C8D,
        "A moderation action has been taken against you in **" ++ guild_name ++ "**.")
  { title := some title
    description := some description
    color := color
    fields :=
      [⟨"Reason", pyOrStr reason "No reason provided", false⟩]
      -- line 368: `if duration and action_type == "timeout":`
      ++ (match duration with
          | some d =>
              if d ≠ 0 ∧ action_type = "timeout" then
                [⟨"Timeout Ends", "<t:" ++ toString (nowUtc + d) ++ ":R>", false⟩]
              else []
          | none => [])
    footer := some "If you believe this action was taken in error, please contact a server administrator." }

/-- `send_moderation_notification` itself: build the embed, then delegate
to `send_dm` (lines 379–383). -/
def send_moderation_notification (st : Cooldowns) (current_time : ℚ)
    (user_id : String) (action_type : String) (reason : Option String)
    (duration : Option Int) (guild_name : String) (nowUtc : Int)
    (env : Env) : Except Exc (Bool × Cooldowns) :=
  send_dm st current_time user_id
    ("A moderation action has been taken against you in " ++ guild_name ++ ".")
    (some (send_moderation_notification_embed action_type reason duration guild_name nowUtc))
    env

/-! ### `send_warning_notification` (lines 140–207) -/

/-- Lines 186–193: the consequence ladder, keyed on the warning count. -/
def warning_consequence (warning_count : Int) : String :=
  if warning_count ≥ 6 then "Role demotion and extended timeout"
  else if warning_count ≥ 3 then "Temporary timeout"
  else if warning_count ≥ 2 then "Brief timeout"
  else "None for first warning"

/-- Lines 155–201: the embed built by `send_warning_notification`. -/
def send_warning_notification_embed (warning_type : String)
    (details : String) (warning_count : Int) (guild_name : String) : Embed :=
  let warning_desc :=
    if warning_type = "curse_word" then
      "Your message was removed for containing inappropriate language in **" ++ guild_name ++ "**."
    else if warning_type = "spam" then
      "You\u0027ve been warned for spamming in **" ++ guild_name ++ "**."
    else if warning_type = "mass_mentions" then
      "You\u0027ve been warned for excessive mentions in **" ++ guild_name ++ "**."
    else
      "You\u0027ve received a warning in **" ++ guild_name ++ "**."
  { title := some "‚ö†Ô∏è Server Warning"
    description := some warning_desc
    color := 0xE74C3C
    fields :=
      [⟨"Details", details, false⟩,
       ⟨"Warning Count", "This is warning #" ++ toString warning_count, true⟩,
       ⟨"Consequence", warning_consequence warning_count, true⟩]
    footer := some "Please review the server rules to avoid further warnings." }

/-- `send_warning_notification`: build the embed, delegate to `send_dm`
(lines 203–207). -/
def send_warning_notification (st : Cooldowns) (current_time : ℚ)
    (user_id : String) (warning_type : String) (details : String)
    (warning_count : Int) (guild_name : String) (env : Env) :
    Except Exc (Bool × Cooldowns) :=
  send_dm st current_time user_id
    "You\u0027ve received a warning in the server."
    (some (send_warning_notification_embed warning_type details warning_count guild_name))
    env

/-! ### `send_profile_info` (lines 209–298) -/

/-- One entry of `profile_data["badges"]`; `get` defaults are applied at
render time. -/
structure Badge where
  icon : Option String
  name : Option String
deriving DecidableEq, Repr

/-- The MongoDB profile document, restricted to the keys
`send_profile_info` reads.  `none` means the key is absent (so the
`.get` default applies).  `created_at` is modelled as the string the
source renders (either `strftime("%b %d, %Y")` of a datetime or
`str(created_at)`), since the claims do not depend on date formatting. -/
structure ProfileData where
  bio : Option String
  username : Option String
  created_at : Option String
  messages_sent : Option Int
  commands_used : Option Int
  warnings_received : Option Int
  badges : List Badge
  dm_notifications : Option Bool
  theme : Option String
  language : Option String
  avatar_url : Option String
deriving DecidableEq, Repr

/-- Python `str.capitalize()`: first character upper-cased, the rest
lower-cased (ASCII-faithful). -/
def pyCapitalize (s : String) : String :=
  match s.toList with
  | [] => ""
  | c :: rest => String.mk (c.toUpper :: rest.map Char.toLower)

/-- Python `str.upper()` (ASCII-faithful). -/
def pyUpper (s : String) : String :=
  String.mk (s.data.map Char.toUpper)

/-- Lines 223–292: the embed built by `send_profile_info` when profile
data exists. -/
def send_profile_info_embed (user_id : String) (pd : ProfileData) : Embed :=
  let stats_text :=
    "Messages: " ++ toString ((pd.messages_sent).getD 0)
      ++ "\nCommands: " ++ toString ((pd.commands_used).getD 0)
      ++ "\nWarnings: " ++ toString ((pd.warnings_received).getD 0)
  let badge_text :=
    String.intercalate "\n"
      (pd.badges.map fun b =>
        (b.icon.getD "üèÜ") ++ " " ++ (b.name.getD "Unknown Badge"))
  let pref_text :=
    "DM Notifications: " ++ (if (pd.dm_notifications).getD true then "Enabled" else "Disabled")
      ++ "\nTheme: " ++ pyCapitalize ((pd.theme).getD "dark")
      ++ "\nLanguage: " ++ pyUpper ((pd.language).getD "en")
  { title := some "üß© Your Profile"
    description := some ((pd.bio).getD "No bio set")
    color := 0x9B59B6
    fields :=
      [⟨"Username", (pd.username).getD "Unknown", true⟩]
      -- line 237: `if created_at:` — truthy check on the value
      ++ (match pd.created_at with
          | some d => if d ≠ "" then [⟨"Profile Created", d, true⟩] else []
          | none => [])
      ++ [⟨"Statistics", stats_text, false⟩]
      -- line 266: `if badges:` — a non-empty list is truthy
      ++ (if pd.badges ≠ [] then [⟨"Badges", badge_text, false⟩] else [])
      ++ [⟨"Preferences", pref_text, false⟩]
    thumbnail := (match pd.avatar_url with
                  | some u => u ≠ ""
                  | none => false)
    footer := some ("User ID: " ++ user_id) }

/-- `send_profile_info` (lines 209–298): with no profile data
(line 220, `if not profile_data:`) fall back to a plain-text message with
no embed; otherwise build the profile embed and send it. -/
def send_profile_info (st : Cooldowns) (current_time : ℚ)
    (user_id : String) (profile_data : Option ProfileData) (env : Env) :
    Except Exc (Bool × Cooldowns) :=
  match profile_data with
  | none =>
      send_dm st current_time user_id "You don\u0027t have a profile yet." none env
  | some pd =>
      send_dm st current_time user_id "Here\u0027s your profile information!"
        (some (send_profile_info_embed user_id pd)) env

end DmManager

/-- Python `str.lower()` (ASCII-faithful), as used for the
`action_type.lower()` dictionary keys. -/
def pyLower (s : String) : String :=
  String.mk (s.data.map Char.toLower)

namespace NotificationHelper

/-! ## `src/helpers/notification.py` -/

/-- `get_action_color` (lines 213–227): the `colors` dict lookup with
default `0x7289DA`, keyed on `action_type.lower()`. -/
def get_action_color (action_type : String) : Int :=
  let k := pyLower action_type
  if k = "ban" then 0xFF0000
  else if k = "kick" then 0xFFA500
  else if k = "timeout" then 0xFFFF00
  else if k = "mute" then 0xFFA500
  else if k = "unmute" then 0x00FF00
  else if k = "voice_mute" then 0xFFA500
  else if k = "voice_unmute" then 0x00FF00
  else if k = "voice_deafen" then 0xFFA500
  else if k = "voice_undeafen" then 0x00FF00
  else if k = "warning" then 0xFFFF00
  else 0x7289DA

/-- `format_duration` (lines 229–241).  Python `//` is floor division
(`Int.fdiv`); the unit word drops its final `s` exactly when the rendered
value is `1`. -/
def format_duration (seconds : Int) : String :=
  if seconds < 60 then
    toString seconds ++ " second" ++ (if seconds ≠ 1 then "s" else "")
  else if seconds < 3600 then
    let minutes := Int.fdiv seconds 60
    toString minutes ++ " minute" ++ (if minutes ≠ 1 then "s" else "")
  else if seconds < 86400 then
    let hours := Int.fdiv seconds 3600
    toString hours ++ " hour" ++ (if hours ≠ 1 then "s" else "")
  else
    let days := Int.fdiv seconds 86400
    toString days ++ " day" ++ (if days ≠ 1 then "s" else "")

/-- The `action_emoji` dict (lines 46–59) with its `.get(…, "📝")`
default, keyed on `action_type.lower()`. -/
def action_emoji (k : String) : String :=
  if k = "ban" then "🔨"
  else if k = "kick" then "👢"
  else if k = "timeout" then "⏰"
  else if k = "mute" then "🔇"
  else if k = "unmute" then "🔊"
  else if k = "voice_mute" then "🎤❌"
  else if k = "voice_unmute" then "🎤✅"
  else if k = "voice_deafen" then "🔇❌"
  else if k = "voice_undeafen" then "🔇✅"
  else if k = "warning" then "⚠️"
  else "📝"

/-- Line 63/73: `if duration and duration > 0:` — `None` and `0` are
falsy, then the comparison runs. -/
def durationPositive : Option Int → Bool
  | none => false
  | some d => d != 0 && decide (d > 0)

/-- Lines 61–92: the action description.  The sequential
`action_type.lower()` comparisons of the source are kept in order. -/
def action_description (action_type : String) (duration : Option Int) : String :=
  let lower := pyLower action_type
  let emoji := action_emoji lower
  if lower = "ban" then
    if durationPositive duration then
      match duration with
      | some d => emoji ++ " You have been **banned** for " ++ format_duration d
      | none => emoji ++ " You have been **permanently banned**"
    else emoji ++ " You have been **permanently banned**"
  else if lower = "kick" then
    emoji ++ " You have been **kicked** from the server"
  else if lower = "timeout" ∨ lower = "mute" then
    if durationPositive duration then
      match duration with
      | some d => emoji ++ " You have been **timed out** for " ++ format_duration d
      | none => emoji ++ " You have been **timed out**"
    else emoji ++ " You have been **timed out**"
  else if lower = "voice_mute" then
    emoji ++ " You have been **muted** in voice channels"
  else if lower = "voice_unmute" then
    emoji ++ " You have been **unmuted** in voice channels"
  else if lower = "voice_deafen" then
    emoji ++ " You have been **deafened** in voice channels"
  else if lower = "voice_undeafen" then
    emoji ++ " You have been **undeafened** in voice channels"
  else
    emoji ++ " Action: **" ++ action_type ++ "**"

/-- The `discord.Guild` attributes `send_moderation_dm` reads:
`guild.icon` truthiness, `guild.member_count` (may be `None`) and
`guild.id`. -/
structure Guild where
  hasIcon : Bool
  member_count : Option Nat
  id : Nat
deriving DecidableEq, Repr

/-- The `discord.Member` attributes read from the `moderator` argument. -/
structure Moderator where
  hasAvatar : Bool
  id : Nat
deriving DecidableEq, Repr

/-- Helper for Python `f"{n:,}"`: walking the reversed digit list, a comma
is inserted before every third digit (positions 3, 6, …). -/
def commaRev : List Char → Nat → List Char
  | [], _ => []
  | c :: rest, i =>
      if i ≠ 0 ∧ i % 3 = 0 then ',' :: c :: commaRev rest (i + 1)
      else c :: commaRev rest (i + 1)

/-- Python `f"{member_count:,}"`: decimal rendering with thousands
separators. -/
def pyCommaFormat (n : Nat) : String :=
  String.mk (commaRev (toString n).toList.reverse 0).reverse

/-- Lines 32–121: the embed built by `send_moderation_dm`.  `nowUtc` is
`datetime.datetime.utcnow()` as integral epoch seconds, so
`int((utcnow + timedelta(seconds=duration)).timestamp())` is
`nowUtc + duration`. -/
def send_moderation_dm_embed (action_type : String) (guild_name : String)
    (reason : Option String) (duration : Option Int)
    (moderator_name : Option String) (guild : Option Guild)
    (moderator : Option Moderator) (nowUtc : Int) : Embed :=
  { color := get_action_color action_type
    -- lines 36–39: `if guild and guild.icon:`
    author := some ("Moderation Action in " ++ guild_name,
      match guild with
      | some g => g.hasIcon
      | none => false)
    -- lines 42–43: `if moderator and moderator.avatar:`
    thumbnail := (match moderator with
                  | some m => m.hasAvatar
                  | none => false)
    description := some (action_description action_type duration)
    fields :=
      [⟨"📝 Reason", pyOrStr reason "No reason provided", false⟩]
      -- line 99: `if moderator_name:` — truthiness of the string
      ++ (match moderator_name with
          | some mn => if mn ≠ "" then [⟨"👤 Moderator", mn, true⟩] else []
          | none => [])
      -- line 102: `if duration and action_type.lower() in ["timeout", "ban", "mute"]:`
      ++ (match duration with
          | some d =>
              if d ≠ 0 ∧ (pyLower action_type = "timeout"
                  ∨ pyLower action_type = "ban" ∨ pyLower action_type = "mute") then
                [⟨"⏳ Duration", "Ends <t:" ++ toString (nowUtc + d) ++ ":R>", true⟩]
              else []
          | none => [])
      -- lines 111–117: `if guild:`, with `guild.member_count or 0`
      ++ (match guild with
          | some g =>
              [⟨"🏠 Server Info",
                "Members: " ++ pyCommaFormat (g.member_count.getD 0)
                  ++ "\nID: " ++ toString g.id, true⟩]
          | none => [])
    footer := some "If you believe this was a mistake, use the Appeal button below"
    timestamp := some nowUtc }

/-- `send_moderation_dm` (lines 6–211): the outer `try` (line 31) wraps
the embed construction and the send; the inner `try` on lines 203–207
catches only `discord.Forbidden`.  `sendOutcome` is the oracle for
`await user.send(embed=…, view=…)`. -/
def send_moderation_dm (action_type : String) (guild_name : String)
    (reason : Option String) (duration : Option Int)
    (moderator_name : Option String) (guild : Option Guild)
    (moderator : Option Moderator) (nowUtc : Int)
    (sendOutcome : Except Exc Unit) : Except Exc Bool :=
  let body : Except Exc Bool :=
    let _embed := send_moderation_dm_embed action_type guild_name reason
      duration moderator_name guild moderator nowUtc
    match sendOutcome with
    | .ok _ => .ok true
    | .error .forbidden => .ok false      -- line 206: `except discord.Forbidden`
    | .error .other => .error .other      -- escapes the inner `try`
  match body with
  | .ok b => .ok b
  | .error _ => .ok false                 -- line 209: `except Exception`

/-! ### The appeal `ModeratorResponse` view (lines 155–192)

The two button callbacks are modelled as transition functions on the
view's state, returning the new state together with the list of effects
performed, in program order. -/

/-- The mutable state of the `ModeratorResponse` view: the `disabled`
flag of each of its two buttons. -/
structure ModeratorResponse where
  approveDisabled : Bool
  denyDisabled : Bool
deriving DecidableEq, Repr

/-- Observable effects the button callbacks can perform. -/
inductive Effect where
  /-- `response.send_message(…, ephemeral=True)` — visible to the presser
  only. -/
  | ephemeralReply (text : String)
  /-- `response.send_message(…)` — public response. -/
  | reply (text : String)
  /-- `interaction.user.send(…)` — DM to the appellant. -/
  | dmAppellant (text : String)
  /-- `user.timeout(None, reason="Appeal approved")`. -/
  | clearTimeout
  /-- `user.edit(mute=False, reason="Appeal approved")`. -/
  | clearVoiceMute
  /-- `user.edit(deafen=False, reason="Appeal approved")`. -/
  | clearVoiceDeafen
  /-- `btn_interaction.message.edit(view=self)`. -/
  | editMessageView
deriving DecidableEq, Repr

/-- Lines 190–192: `disable_all_buttons` sets `disabled` on every child. -/
def disable_all_buttons (_v : ModeratorResponse) : ModeratorResponse :=
  { approveDisabled := true, denyDisabled := true }

/-- The `approve` callback (lines 160–177).  `mod_id` is the id the view
was constructed with (`moderator.id if moderator else None`, hence an
`Option`); `actor_id` is `btn_interaction.user.id`;
`appellant_mention` is `interaction.user.mention`. -/
def approve (action_type : String) (mod_id : Option Nat) (actor_id : Nat)
    (appellant_mention : String) (v : ModeratorResponse) :
    ModeratorResponse × List Effect :=
  if some actor_id ≠ mod_id then
    (v, [.ephemeralReply "You cannot respond to this appeal."])
  else
    let undo : List Effect :=
      if action_type = "timeout" then [.clearTimeout]
      else if action_type = "voice_mute" then [.clearVoiceMute]
      else if action_type = "voice_deafen" then [.clearVoiceDeafen]
      else []
    (disable_all_buttons v,
      undo
        ++ [.reply ("Appeal approved for " ++ appellant_mention),
            .dmAppellant "Your appeal has been approved! The moderation action has been reversed.",
            .editMessageView])

/-- The `deny` callback (lines 179–188). -/
def deny (mod_id : Option Nat) (actor_id : Nat)
    (appellant_mention : String) (v : ModeratorResponse) :
    ModeratorResponse × List Effect :=
  if some actor_id ≠ mod_id then
    (v, [.ephemeralReply "You cannot respond to this appeal."])
  else
    (disable_all_buttons v,
      [.reply ("Appeal denied for " ++ appellant_mention),
       .dmAppellant "Your appeal has been denied.",
       .editMessageView])

end NotificationHelper

/-! ## Claim-side rendering rules (for the duration-formatting claim)

These two definitions follow the words of the specification ("largest
unit not exceeding the value, integer division, no rounding", with the
singular/plural behaviour stated separately), to be compared against the
two renderers found in the source. -/

/-- The spec's unit rendering with a singular form exactly when the
rendered value is 1. -/
def claimUnitWord (n : Int) (u : String) : String :=
  toString n ++ " " ++ u ++ (if n = 1 then "" else "s")

/-- The spec's duration rule: largest unit not exceeding the value,
integer division, singular unit word at 1. -/
def claimDurationRule (s : Int) : String :=
  if s < 60 then claimUnitWord s "second"
  else if s < 3600 then claimUnitWord (Int.fdiv s 60) "minute"
  else if s < 86400 then claimUnitWord (Int.fdiv s 3600) "hour"
  else claimUnitWord (Int.fdiv s 86400) "day"

/-- The same unit ladder with the unit word always plural (what the
inline renderer of `send_moderation_notification` turns out to do). -/
def claimDurationRulePlural (s : Int) : String :=
  if s < 60 then toString s ++ " seconds"
  else if s < 3600 then toString (Int.fdiv s 60) ++ " minutes"
  else if s < 86400 then toString (Int.fdiv s 3600) ++ " hours"
  else toString (Int.fdiv s 86400) ++ " days"

/-! ## Shared lemmas -/

namespace DmManager

lemma lookup_store_self (st : Cooldowns) (k : String) (v : ℚ) :
    lookup (store st k v) k = some v := by
  induction st with
  | nil => simp [store, lookup]
  | cons hd tl ih =>
      obtain ⟨k0, v0⟩ := hd
      by_cases h : k0 = k <;> simp [store, lookup, h, ih]

lemma allow_of_gate_true (st : Cooldowns) (user_id : String)
    (current_time : ℚ) (message : String) (embed : Option Embed)
    (h : (allow st user_id current_time message embed).1 = true) :
    allow st user_id current_time message embed
      = (true, store st user_id current_time) := by
  unfold allow at h ⊢
  cases hl : lookup st user_id with
  | none => simp
  | some last =>
      rw [hl] at h
      dsimp only at h ⊢
      split_ifs at h ⊢ with hc
      rfl

lemma send_dm_state (st : Cooldowns) (current_time : ℚ) (user_id : String)
    (message : String) (embed : Option Embed) (env : Env) :
    ∃ b : Bool, send_dm st current_time user_id message embed env
      = .ok (b, (allow st user_id current_time message embed).2) := by
  unfold send_dm
  cases h : allow st user_id current_time message embed with
  | mk allowed st2 =>
      cases allowed
      · exact ⟨false, by simp⟩
      · cases htry : send_dm_try env message embed with
        | ok b => exact ⟨b, by simp [htry]⟩
        | error e => cases e <;> exact ⟨false, by simp [htry]⟩

end DmManager

/-! ## Claims -/

open DmManager NotificationHelper

/-- A concrete fully-successful environment, used to instantiate the
quantified theorems at specific inputs. -/
def envOk : Env :=
  { userIdInt := .ok 7
    getUser := fun _ => some ()
    fetchUser := fun _ => .ok (some ())
    hasStorage := false
    getUserProfile := .ok none
    userSend := fun _ _ => .ok ()
    incrementStat := .ok () }

/-- C1: the DM cooldown gate computes a window of 5 seconds, +2 if the
plain-text length exceeds 200, +1 if rich content is present; a second
send to the same recipient strictly within that window of the recorded
last-send time returns false without updating the record, while an
attempt at or beyond the window (or a first-ever attempt) records the
current time and is allowed. -/
theorem cooldown_gate_spec (st : Cooldowns) (user_id : String)
    (current_time last : ℚ) (message : String) (embed : Option Embed)
    (env : Env) :
    (cooldown_time message embed
        = 5 + (if message.length > 200 then 2 else 0)
            + (if embed.isSome then 1 else 0))
    ∧ (lookup st user_id = some last →
        current_time - last < cooldown_time message embed →
          allow st user_id current_time message embed = (false, st)
          ∧ send_dm st current_time user_id message embed env = .ok (false, st))
    ∧ ((lookup st user_id = none
          ∨ (lookup st user_id = some last
              ∧ cooldown_time message embed ≤ current_time - last)) →
          allow st user_id current_time message embed
              = (true, store st user_id current_time)
          ∧ lookup (store st user_id current_time) user_id = some current_time) := by
  refine ⟨?_, ?_, ?_⟩
  · unfold cooldown_time
    by_cases h : message.length > 200
    · have hne : message ≠ "" := by
        intro he
        rw [he] at h
        simp at h
      simp [h, hne]
    · simp [h]
  · intro hl hlt
    have hal : allow st user_id current_time message embed = (false, st) := by
      unfold allow
      rw [hl]
      simp [hlt]
    refine ⟨hal, ?_⟩
    unfold send_dm
    rw [hal]
    simp
  · intro hcase
    have hal : allow st user_id current_time message embed
        = (true, store st user_id current_time) := by
      unfold allow
      rcases hcase with hnone | ⟨hsome, hge⟩
      · rw [hnone]
      · rw [hsome]
        simp [not_lt.mpr hge]
    exact ⟨hal, lookup_store_self st user_id current_time⟩

/-- Witness for C1: with the record holding timestamp 0 for user "7" and
a short plain message, an attempt at time 3 (inside the 5-second window)
is rejected without touching the state, and an attempt at time 5 (at the
window boundary) is allowed and re-records the timestamp. -/
theorem cooldown_gate_spec_witness :
    (allow [("7", 0)] "7" 3 "hello" none = (false, [("7", 0)])
      ∧ send_dm [("7", 0)] 3 "7" "hello" none envOk = .ok (false, [("7", 0)]))
    ∧ (allow [("7", 0)] "7" 5 "hello" none = (true, [("7", 5)])
      ∧ lookup [("7", 5)] "7" = some 5) := by
  have hc : ¬(¬"hello" = "" ∧ 200 < "hello".length) := by decide
  constructor
  · exact (cooldown_gate_spec [("7", 0)] "7" 3 0 "hello" none envOk).2.1
      (by decide) (by norm_num [cooldown_time, hc])
  · exact (cooldown_gate_spec [("7", 0)] "7" 5 0 "hello" none envOk).2.2
      (Or.inr ⟨by decide, by norm_num [cooldown_time, hc]⟩)

/-- C2: the cooldown record entry for a recipient is updated exactly when
the call passes the cooldown check — for every environment, including
every failing delivery — and left unchanged when the gate rejects. -/
theorem cooldown_debit_on_attempt (st : Cooldowns) (current_time : ℚ)
    (user_id : String) (message : String) (embed : Option Embed) (env : Env) :
    ∃ b : Bool,
      send_dm st current_time user_id message embed env
        = .ok (b, (allow st user_id current_time message embed).2)
      ∧ (allow st user_id current_time message embed).2
          = (if (allow st user_id current_time message embed).1
              then store st user_id current_time else st)
      ∧ lookup (store st user_id current_time) user_id = some current_time := by
  obtain ⟨b, hb⟩ := send_dm_state st current_time user_id message embed env
  refine ⟨b, hb, ?_, lookup_store_self st user_id current_time⟩
  unfold allow
  cases hl : lookup st user_id with
  | none => simp
  | some last => dsimp only; split_ifs <;> simp_all

/-- An environment in which the recipient resolves from cache and the
stored preferences have `dm_notifications = false`. -/
def envOptedOut : Env :=
  { userIdInt := .ok 1
    getUser := fun _ => some ()
    fetchUser := fun _ => .ok none
    hasStorage := true
    getUserProfile := .ok (some ⟨false⟩)
    userSend := fun _ _ => .ok ()
    incrementStat := .ok () }

/-- Counterexample to C3: for a recipient with `dm_notifications = false`
and no prior cooldown entry, `send_dm` returns the opted-out result
`false`, but the recorded last-send timestamp is NOT the same after the
call — line 53 stores the timestamp before the preference check on
lines 64–71 runs, so the entry changes from absent to the call time. -/
theorem opted_out_consumes_slot_cex :
    send_dm [] 10 "1" "hi" none envOptedOut = .ok (false, [("1", 10)])
    ∧ lookup ([] : Cooldowns) "1" = none
    ∧ lookup [("1", (10 : ℚ))] "1" = some 10 := by
  refine ⟨rfl, rfl, ?_⟩
  simp [lookup]

/-- C3 amended: a `send_dm` call for a recipient whose stored preferences
have `dm_notifications = false` skips sending and returns the unsent
result `false`, but it DOES consume a cooldown slot whenever it passes
the cooldown gate: the recipient's recorded last-send timestamp equals
the call time afterwards (the record is written before the preference
check). -/
theorem opted_out_still_consumes_slot (st : Cooldowns) (current_time : ℚ)
    (user_id : String) (message : String) (embed : Option Embed) (env : Env)
    (hgate : (allow st user_id current_time message embed).1 = true)
    (hres : resolveUser env = .ok (some ()))
    (hopt : optedOut env = true) :
    send_dm st current_time user_id message embed env
      = .ok (false, store st user_id current_time)
    ∧ lookup (store st user_id current_time) user_id = some current_time := by
  have hal := allow_of_gate_true st user_id current_time message embed hgate
  have htry : send_dm_try env message embed = .ok false := by
    unfold send_dm_try
    rw [hres]
    simp [hopt]
    rfl
  constructor
  · unfold send_dm
    rw [hal]
    simp [htry]
  · exact lookup_store_self st user_id current_time

/-- Witness for the amended C3: at time 10, user "1", empty prior state
and the opted-out environment, the call returns `false` yet the cooldown
entry afterwards holds the call time 10. -/
theorem opted_out_still_consumes_slot_witness :
    send_dm [] 10 "1" "hi" none envOptedOut = .ok (false, store [] "1" 10)
    ∧ lookup (store [] "1" 10) "1" = some 10 :=
  opted_out_still_consumes_slot [] 10 "1" "hi" none envOptedOut rfl rfl rfl

/-- C4: neither `send_dm` nor `send_moderation_dm` lets an error escape:
for every state, input and environment — i.e. for every combination of
outcomes of the external capability calls, raising included — both
functions return an ordinary value (`Except.ok`), never an uncaught
exception. -/
theorem no_uncaught_errors (st : Cooldowns) (current_time : ℚ)
    (user_id message : String) (embed : Option Embed) (env : Env)
    (action_type guild_name : String) (reason : Option String)
    (duration : Option Int) (moderator_name : Option String)
    (guild : Option NotificationHelper.Guild)
    (moderator : Option NotificationHelper.Moderator) (nowUtc : Int)
    (sendOutcome : Except Exc Unit) :
    (∃ b st2, send_dm st current_time user_id message embed env = .ok (b, st2))
    ∧ (∃ b, send_moderation_dm action_type guild_name reason duration
        moderator_name guild moderator nowUtc sendOutcome = .ok b) := by
  constructor
  · obtain ⟨b, hb⟩ := send_dm_state st current_time user_id message embed env
    exact ⟨b, _, hb⟩
  · unfold send_moderation_dm
    cases sendOutcome with
    | ok u => exact ⟨true, rfl⟩
    | error e => cases e <;> exact ⟨false, rfl⟩

lemma claimUnitWord_eq (n : Int) (u : String) :
    toString n ++ (" " ++ u) ++ (if n ≠ 1 then "s" else "") = claimUnitWord n u := by
  unfold claimUnitWord
  by_cases h : n = 1 <;> simp [h, String.append_assoc]

/-- Counterexample to C5: the claim covers "the human-readable duration
rendering in moderation notices", but the inline renderer of
`DMManager.send_moderation_notification` (lines 330–338) never
singularizes: at 90 seconds it renders "1 minutes", not the "1 minute"
the claim requires, and that string is what the timeout notice embeds. -/
theorem duration_singular_cex :
    DmManager.duration_text 90 = "1 minutes"
    ∧ DmManager.duration_text 90 ≠ "1 minute"
    ∧ (DmManager.send_moderation_notification_embed "timeout" none (some 90) "G" 0).description
        = some "You have been timed out in **G** for **1 minutes**."
    ∧ NotificationHelper.format_duration 90 = "1 minute" := by
  refine ⟨by decide, by decide, ?_, by decide⟩
  decide

/-- C5 amended: `format_duration` in `notification.py` renders with the
largest unit not exceeding the value, integer division, and a singular
unit word exactly when the rendered value is 1 (45→"45 seconds",
90→"1 minute", 7200→"2 hours", 172800→"2 days"); the inline renderer of
`send_moderation_notification` in `dm_manager.py` uses the same unit
thresholds and integer division but always pluralizes the unit word. -/
theorem duration_rendering_amended (s : Int) :
    NotificationHelper.format_duration s = claimDurationRule s
    ∧ DmManager.duration_text s = claimDurationRulePlural s
    ∧ NotificationHelper.format_duration 45 = "45 seconds"
    ∧ NotificationHelper.format_duration 90 = "1 minute"
    ∧ NotificationHelper.format_duration 7200 = "2 hours"
    ∧ NotificationHelper.format_duration 172800 = "2 days" := by
  refine ⟨?_, rfl, by decide, by decide, by decide, by decide⟩
  unfold NotificationHelper.format_duration claimDurationRule
  by_cases h1 : s < 60
  · simp only [h1, if_true]
    exact claimUnitWord_eq s "second"
  · by_cases h2 : s < 3600
    · simp only [h1, h2, if_true, if_false]
      exact claimUnitWord_eq (Int.fdiv s 60) "minute"
    · by_cases h3 : s < 86400
      · simp only [h1, h2, h3, if_true, if_false]
        exact claimUnitWord_eq (Int.fdiv s 3600) "hour"
      · simp only [h1, h2, h3, if_false]
        exact claimUnitWord_eq (Int.fdiv s 86400) "day"

/-- C6: the Consequence field of a warning notice is a function of the
warning count alone, following the threshold ladder: `count ≥ 6` yields
the role-demotion-plus-extended-timeout consequence, `count ≥ 3` the
temporary timeout, `count ≥ 2` the brief timeout, and any lower count
the no-consequence text. -/
theorem warning_consequence_ladder (warning_type details guild_name : String)
    (c : Int) :
    ((send_warning_notification_embed warning_type details c guild_name).fields)[2]?
        = some ⟨"Consequence", warning_consequence c, true⟩
    ∧ (6 ≤ c → warning_consequence c = "Role demotion and extended timeout")
    ∧ (3 ≤ c → c < 6 → warning_consequence c = "Temporary timeout")
    ∧ (2 ≤ c → c < 3 → warning_consequence c = "Brief timeout")
    ∧ (c < 2 → warning_consequence c = "None for first warning") := by
  refine ⟨?_, ?_, ?_, ?_, ?_⟩
  · simp [send_warning_notification_embed]
  · intro h
    rw [warning_consequence, if_pos h]
  · intro h3 h6
    rw [warning_consequence, if_neg (by omega), if_pos h3]
  · intro h2 h3
    rw [warning_consequence, if_neg (by omega), if_neg (by omega), if_pos h2]
  · intro h
    rw [warning_consequence, if_neg (by omega), if_neg (by omega), if_neg (by omega)]

/-- Witness for C6: the ladder evaluated at counts 1, 2, 3 and 6. -/
theorem warning_consequence_ladder_witness :
    warning_consequence 1 = "None for first warning"
    ∧ warning_consequence 2 = "Brief timeout"
    ∧ warning_consequence 3 = "Temporary timeout"
    ∧ warning_consequence 6 = "Role demotion and extended timeout"
    ∧ ((send_warning_notification_embed "spam" "details" 2 "G").fields)[2]?
        = some ⟨"Consequence", warning_consequence 2, true⟩ :=
  ⟨(warning_consequence_ladder "spam" "details" "G" 1).2.2.2.2 (by norm_num),
   (warning_consequence_ladder "spam" "details" "G" 2).2.2.2.1 (by norm_num) (by norm_num),
   (warning_consequence_ladder "spam" "details" "G" 3).2.2.1 (by norm_num) (by norm_num),
   (warning_consequence_ladder "spam" "details" "G" 6).2.1 (by norm_num),
   (warning_consequence_ladder "spam" "details" "G" 2).1⟩

/-- C7: a ban notice with no reason and no duration has Reason exactly
"No reason provided", the fixed ban title/color of the composer's
action-kind table, and no duration/timeout-end field.  Both composers are
covered: `send_moderation_notification` in `dm_manager.py` (fixed title
`üî® Banned from …` and dark-red `0x992D22`) and `send_moderation_dm` in
`notification.py` (color from `get_action_color`'s ban entry `0xFF0000`,
ban emoji description). -/
theorem ban_notice_defaults (guild_name : String) (moderator_name : Option String)
    (guild : Option Guild) (moderator : Option Moderator) (t1 t2 : Int) :
    (send_moderation_notification_embed "ban" none none guild_name t1).title
        = some ("üî® Banned from " ++ guild_name)
    ∧ (send_moderation_notification_embed "ban" none none guild_name t1).color = 0x992D22
    ∧ (send_moderation_notification_embed "ban" none none guild_name t1).fields
        = [⟨"Reason", "No reason provided", false⟩]
    ∧ (send_moderation_dm_embed "ban" guild_name none none moderator_name
        guild moderator t2).color = get_action_color "ban"
    ∧ get_action_color "ban" = 0xFF0000
    ∧ (send_moderation_dm_embed "ban" guild_name none none moderator_name
        guild moderator t2).description
        = some "🔨 You have been **permanently banned**"
    ∧ (send_moderation_dm_embed "ban" guild_name none none moderator_name
        guild moderator t2).fields.head?
        = some ⟨"📝 Reason", "No reason provided", false⟩
    ∧ ∀ f ∈ (send_moderation_dm_embed "ban" guild_name none none moderator_name
        guild moderator t2).fields,
        f.name ≠ "⏳ Duration" ∧ f.name ≠ "Timeout Ends" := by
  refine ⟨rfl, rfl, rfl, rfl, by decide, ?_, rfl, ?_⟩
  · exact congrArg Option.some (by decide)
  · intro f hf
    simp only [send_moderation_dm_embed] at hf
    rcases moderator_name with _ | mn
    · rcases guild with _ | g
      · simp at hf
        subst hf
        exact ⟨by simp, by simp⟩
      · simp at hf
        rcases hf with rfl | rfl
        · exact ⟨by simp, by simp⟩
        · exact ⟨by simp, by simp⟩
    · dsimp only at hf
      split_ifs at hf with hmn
      · rcases guild with _ | g
        · simp at hf
          rcases hf with rfl | rfl
          · exact ⟨by simp, by simp⟩
          · exact ⟨by simp, by simp⟩
        · simp at hf
          rcases hf with rfl | rfl | rfl
          · exact ⟨by simp, by simp⟩
          · exact ⟨by simp, by simp⟩
          · exact ⟨by simp, by simp⟩
      · rcases guild with _ | g
        · simp at hf
          subst hf
          exact ⟨by simp, by simp⟩
        · simp at hf
          rcases hf with rfl | rfl
          · exact ⟨by simp, by simp⟩
          · exact ⟨by simp, by simp⟩

/-- Witness for C7: the two ban embeds at concrete inputs, with the
no-duration-field fact instantiated at the Reason field itself. -/
theorem ban_notice_defaults_witness :
    (send_moderation_notification_embed "ban" none none "G" 0).fields
        = [⟨"Reason", "No reason provided", false⟩]
    ∧ (⟨"📝 Reason", "No reason provided", false⟩ : EmbedField).name ≠ "⏳ Duration" :=
  ⟨(ban_notice_defaults "G" none none none 0 0).2.2.1,
   ((ban_notice_defaults "G" none none none 0 0).2.2.2.2.2.2.2
      ⟨"📝 Reason", "No reason provided", false⟩ (by decide)).1⟩

/-- C8: in the appeal workflow, an Approve or Deny press by any actor
other than the designated moderator produces only the private
not-authorized response and changes nothing — no reversal, no outcome
notification, buttons untouched — while the designated moderator's press
disables both affordances and performs the reversal (for the reversible
kinds) and the notifications. -/
theorem appeal_authorization (action_type : String) (mod_id : Option Nat)
    (actor_id m : Nat) (mention : String) (v : ModeratorResponse)
    (hne : some actor_id ≠ mod_id) :
    approve action_type mod_id actor_id mention v
        = (v, [.ephemeralReply "You cannot respond to this appeal."])
    ∧ deny mod_id actor_id mention v
        = (v, [.ephemeralReply "You cannot respond to this appeal."])
    ∧ (approve action_type (some m) m mention v).1
        = { approveDisabled := true, denyDisabled := true }
    ∧ (deny (some m) m mention v).1
        = { approveDisabled := true, denyDisabled := true }
    ∧ Effect.dmAppellant
        "Your appeal has been approved! The moderation action has been reversed."
        ∈ (approve action_type (some m) m mention v).2
    ∧ Effect.dmAppellant "Your appeal has been denied."
        ∈ (deny (some m) m mention v).2
    ∧ Effect.clearTimeout ∈ (approve "timeout" (some m) m mention v).2 := by
  refine ⟨?_, ?_, ?_, ?_, ?_, ?_, ?_⟩
  · unfold approve
    rw [if_pos hne]
  · unfold deny
    rw [if_pos hne]
  · unfold approve
    simp [disable_all_buttons]
  · unfold deny
    simp [disable_all_buttons]
  · unfold approve
    simp
  · unfold deny
    simp
  · unfold approve
    simp

/-- Witness for C8: actor 2 pressing on an appeal designated to
moderator 1 is rejected without touching the enabled buttons. -/
theorem appeal_authorization_witness :
    approve "timeout" (some 1) 2 "@u" ⟨false, false⟩
        = (⟨false, false⟩, [.ephemeralReply "You cannot respond to this appeal."])
    ∧ deny (some 1) 2 "@u" ⟨false, false⟩
        = (⟨false, false⟩, [.ephemeralReply "You cannot respond to this appeal."])
    ∧ Effect.clearTimeout ∈ (approve "timeout" (some 1) 1 "@u" ⟨false, false⟩).2 :=
  ⟨(appeal_authorization "timeout" (some 1) 2 1 "@u" ⟨false, false⟩ (by decide)).1,
   (appeal_authorization "timeout" (some 1) 2 1 "@u" ⟨false, false⟩ (by decide)).2.1,
   (appeal_authorization "timeout" (some 1) 2 1 "@u" ⟨false, false⟩ (by decide)).2.2.2.2.2.2⟩

/-- C9: a profile request with absent profile data falls back to the
plain-text no-profile message with no rich content attached, returning
exactly what that plain-text `send_dm` call returns (so the cooldown gate
sees no rich content and the base 5-second window); with profile data
present the profile embed is attached. -/
theorem profile_null_fallback (st : Cooldowns) (current_time : ℚ)
    (user_id : String) (env : Env) :
    send_profile_info st current_time user_id none env
        = send_dm st current_time user_id "You don\u0027t have a profile yet." none env
    ∧ (∀ pd, send_profile_info st current_time user_id (some pd) env
        = send_dm st current_time user_id "Here\u0027s your profile information!"
            (some (send_profile_info_embed user_id pd)) env)
    ∧ cooldown_time "You don\u0027t have a profile yet." none = 5 := by
  refine ⟨rfl, fun pd => rfl, ?_⟩
  have hc : ¬(¬"You don\u0027t have a profile yet." = ""
      ∧ 200 < "You don\u0027t have a profile yet.".length) := by decide
  norm_num [cooldown_time, hc]

lemma action_description_not_positive (action_type : String) (d : Int)
    (hd : durationPositive (some d) = false) :
    action_description action_type (some d) = action_description action_type none := by
  unfold action_description
  rw [hd]
  rfl

/-- C10: in `send_moderation_dm`, a duration of 0 behaves exactly like an
absent duration — the whole embed is identical (permanently-banned ban
description, no duration string for timeout/mute, no Duration field for
any kind) — and the description never applies the duration formatter to a
non-positive value: for every `d ≤ 0` the description equals the
no-duration one. -/
theorem zero_duration_as_absent (action_type guild_name : String)
    (reason : Option String) (moderator_name : Option String)
    (guild : Option Guild) (moderator : Option Moderator) (nowUtc : Int) :
    send_moderation_dm_embed action_type guild_name reason (some 0)
        moderator_name guild moderator nowUtc
      = send_moderation_dm_embed action_type guild_name reason none
        moderator_name guild moderator nowUtc
    ∧ (∀ d : Int, d ≤ 0 →
        action_description action_type (some d)
          = action_description action_type none)
    ∧ ∀ f ∈ (send_moderation_dm_embed action_type guild_name reason (some 0)
        moderator_name guild moderator nowUtc).fields,
        f.name ≠ "⏳ Duration" := by
  have hzero : durationPositive (some 0) = false := by decide
  have hembed : send_moderation_dm_embed action_type guild_name reason (some 0)
      moderator_name guild moderator nowUtc
    = send_moderation_dm_embed action_type guild_name reason none
      moderator_name guild moderator nowUtc := by
    unfold send_moderation_dm_embed
    rw [action_description_not_positive action_type 0 hzero]
    simp
  refine ⟨hembed, ?_, ?_⟩
  · intro d hd
    apply action_description_not_positive
    unfold durationPositive
    simp only [Bool.and_eq_false_iff]
    by_cases h0 : d = 0
    · left; simp [h0]
    · right; simp [not_lt.mpr hd]
  · intro f hf
    rw [hembed] at hf
    simp only [send_moderation_dm_embed] at hf
    rcases moderator_name with _ | mn
    · rcases guild with _ | g
      · simp at hf
        subst hf
        simp
      · simp at hf
        rcases hf with rfl | rfl
        · simp
        · simp
    · dsimp only at hf
      split_ifs at hf with hmn
      · rcases guild with _ | g
        · simp at hf
          rcases hf with rfl | rfl
          · simp
          · simp
        · simp at hf
          rcases hf with rfl | rfl | rfl
          · simp
          · simp
          · simp
      · rcases guild with _ | g
        · simp at hf
          subst hf
          simp
        · simp at hf
          rcases hf with rfl | rfl
          · simp
          · simp

/-- Witness for C10: at kind "ban", zero duration gives the same embed as
no duration, and a negative duration still renders the
permanently-banned description. -/
theorem zero_duration_as_absent_witness :
    send_moderation_dm_embed "ban" "G" none (some 0) none none none 0
        = send_moderation_dm_embed "ban" "G" none none none none none 0
    ∧ action_description "ban" (some (-5)) = action_description "ban" none :=
  ⟨(zero_duration_as_absent "ban" "G" none none none none 0).1,
   (zero_duration_as_absent "ban" "G" none none none none 0).2.1 (-5) (by norm_num)⟩
